import Mathlib

set_option maxHeartbeats 1000000

/-!
Verification development for the myflix REST backend
(sources: src/index.js, src/helpers.js, src/unnamed/part_000).

The JavaScript sources are shallowly embedded below: request bodies become
lists of (field, value) pairs, the express-validator chains of the PATCH and
DELETE routes become a list of `Chain` values run in order by `runChains`
(modelling request-level bail), database reads become explicit
`String → Except String Bool` parameters (an `Except.error` models a storage
fault thrown by the driver), and the route handlers become total functions
returning an HTTP status, a message and the list of validators that actually
ran.
-/

namespace Myflix

/-- Values occurring in the JSON request bodies this API handles: strings,
arrays of id strings, and null. -/
inductive JVal where
  | vStr (s : String)
  | vArr (l : List String)
  | vNull
deriving DecidableEq

/-- A parsed request body: field name / value pairs (object keys are unique). -/
abbrev ReqBody := List (String × JVal)

/-- JavaScript truthiness for the values of `JVal`: the empty string and null
are falsy, every other string and every array is truthy. -/
def jvalTruthy : JVal → Bool
  | JVal.vStr s => !s.isEmpty
  | JVal.vArr _ => true
  | JVal.vNull => false

/-- Coercion of a body value to a string. Under this API's routes the
string-field validators only ever see `vStr` values; the other cases mirror
JavaScript string coercion and are never exercised by the theorems below. -/
def jvalAsStr : JVal → String
  | JVal.vStr s => s
  | JVal.vArr l => String.intercalate ("," ) l
  | JVal.vNull => ("null")

/-- Coercion of a body value to an array of id strings. The favourites
validators only ever see `vArr` values; the other cases are never exercised. -/
def jvalAsArr : JVal → List String
  | JVal.vArr l => l
  | JVal.vStr s => [s]
  | JVal.vNull => []

/-- A stored user document (src/unnamed/part_000, userSchema). `password`
holds the stored hash. `birthday` is stored as a BSON date, not a string;
`favourites` holds the referenced movie ObjectIds, here kept as their
24-character hex strings (the code compares them via `toHexString()`). -/
structure User where
  username : String
  password : String
  email : String
  birthday : Option String
  favourites : List String

/-- From src/helpers.js line 19 (and the positional loop of the second
variant, lines 218-224): the favourites branch of the changed-field check.
The JavaScript is
`fieldValue.length !== stored.length || fieldValue.some((id, i) => id !== stored[i].toHexString())`;
the positional scan is only evaluated when the two lengths are equal (the
disjunction short-circuits), so pairing the lists positionally with `zip` is
exact. -/
def favouritesChanged (newIds stored : List String) : Bool :=
  (newIds.length != stored.length) || (newIds.zip stored).any (fun p => p.1 != p.2)

/-- From src/helpers.js lines 220-223 (second variant): the element-by-element
for loop, returning true at the first position where the submitted id differs
from the stored id. -/
def favChangedLoop : List String → List String → Bool
  | a :: as, b :: bs => (a != b) || favChangedLoop as bs
  | _, _ => false

/-- From src/helpers.js lines 218-224: the second variant
`_validateUserFieldUnchanged` favourites branch — length comparison first,
then the positional loop. -/
def favouritesChangedV2 (newIds stored : List String) : Bool :=
  if newIds.length != stored.length then true else favChangedLoop newIds stored

/-- Result of one express-validator custom check: accept, or reject with a
single message. -/
inductive VRes where
  | pass
  | fail (msg : String)
deriving DecidableEq

/-- Modelled from the spec: the hashing primitive `users.hashPassword` lives
in src/models.js, which is absent from src/ (src/unnamed/part_000 declares
the schemas only). The spec gives `hash(plaintext) -> hash`, a one-way hash
whose tagged output is stored in place of the plaintext. -/
def hashPassword (p : String) : String := ("$2b$10$") ++ p

/-- Modelled from the spec: `user.validatePassword` is likewise absent from
src/. The spec gives `verify(plaintext, hash) -> bool`, true exactly when the
plaintext is the preimage of the stored hash. -/
def validatePassword (plain stored : String) : Bool := stored == hashPassword plain

/-- Where a validator chain reads its field from. src/helpers.js decides this
by comparing its `request` argument against the imported `body` and `param`
parsers of express-validator. -/
inductive ReqPart where
  | body
  | param
deriving DecidableEq

/-- One character of the class `[a-zA-Z0-9]` (src/helpers.js lines 90, 287). -/
def isAlnumChar (c : Char) : Bool :=
  c.isDigit || (('a' ≤ c) && (c ≤ 'z')) || (('A' ≤ c) && (c ≤ 'Z'))

/-- Models the regex tests of src/helpers.js lines 90 and 287
(`^[a-zA-Z0-9]+$`): nonempty and every character alphanumeric. -/
def usernameAlnum (s : String) : Bool := (!s.isEmpty) && s.toList.all isAlnumChar

/-- From src/helpers.js lines 87-99: the first `_validateUsername` variant.
`userExists` models `await users.exists` for a username; an `Except.error` is
a storage fault thrown by the driver, which the catch block converts into a
Database error rejection. The existence check is only reached after the
length and alphanumeric checks pass, and its polarity flips with the request
part. -/
def _validateUsername (request : ReqPart) (userExists : String → Except String Bool)
    (username : String) : VRes :=
  if username.length < 5 then
    VRes.fail ("The username must be at least 5 characters long.")
  else if !(usernameAlnum username) then
    VRes.fail ("The username contains non alphanumeric characters - not allowed.")
  else
    match userExists username with
    | Except.error e => VRes.fail (("Database error: ") ++ e)
    | Except.ok uex =>
      if ((request == ReqPart.body) && uex) || ((request == ReqPart.param) && (!uex)) then
        VRes.fail (("The username \x27") ++ username ++ ("\x27 ")
          ++ (if uex then ("already exists") else ("does not exist")) ++ (" in the database."))
      else VRes.pass

/-- From src/helpers.js lines 284-303: the second `_validateUsername`
variant — same length and alphanumeric checks, then separate param/body
branches with fixed messages. The final fall-through mirrors `return true`. -/
def _validateUsernameV2 (request : ReqPart) (userExists : String → Except String Bool)
    (username : String) : VRes :=
  if username.length < 5 then
    VRes.fail ("The username must be at least 5 characters long.")
  else if !(usernameAlnum username) then
    VRes.fail ("The username contains non alphanumeric characters - not allowed.")
  else if request == ReqPart.param then
    match userExists username with
    | Except.error e => VRes.fail (("Database error: ") ++ e)
    | Except.ok uex =>
      if !uex then VRes.fail ("The username provided in the URL does not exist in the database.")
      else VRes.pass
  else if request == ReqPart.body then
    match userExists username with
    | Except.error e => VRes.fail (("Database error: ") ++ e)
    | Except.ok uex =>
      if uex then VRes.fail ("The username already exists in the database.")
      else VRes.pass
  else VRes.pass

/-- JavaScript strict equality between a body value and a stored string:
true only when the body value is a string with the same characters (values of
different types are never strictly equal). -/
def jvalEqStr (v : JVal) (s : String) : Bool :=
  match v with
  | JVal.vStr t => t == s
  | _ => false

/-- From src/helpers.js lines 16-22: the custom check of
`_validateFieldUnchanged` — truthy means the submitted value differs from the
stored one. For `password` it verifies the plaintext against the stored
hash; for `favourites` it runs the positional list comparison; for any other
field it is JavaScript strict inequality `fieldValue !== req.user[field]`.
For `username` and `email` that compares two strings; for `birthday` it
compares the submitted string against a stored Date object (or undefined),
values of different types, so it always reports changed. -/
def fieldChangedCheck (u : User) (field : String) (v : JVal) : Bool :=
  if field == ("password") then !(validatePassword (jvalAsStr v) u.password)
  else if field == ("favourites") then favouritesChanged (jvalAsArr v) u.favourites
  else if field == ("username") then !(jvalEqStr v u.username)
  else if field == ("email") then !(jvalEqStr v u.email)
  else true

/-- From src/helpers.js line 16: the failure message of the changed-field
validator chains. -/
def unchangedMsg (field : String) : String :=
  field ++ (" is the same as the current ") ++ field ++ (".")

/-- The changed-field validator as a chain step: truthy custom result means
pass, falsy means the chain fails with its configured message. -/
def _validateFieldUnchangedRun (u : User) (field : String) (v : JVal) : VRes :=
  if fieldChangedCheck u field v then VRes.pass else VRes.fail (unchangedMsg field)

/-- One hex digit. -/
def isHexChar (c : Char) : Bool :=
  c.isDigit || (('a' ≤ c) && (c ≤ 'f')) || (('A' ≤ c) && (c ≤ 'F'))

/-- Models `mongoose.Types.ObjectId.isValid` on strings: valid when 12
characters long (a 12-byte representation) or a 24-character hex string. -/
def isValidObjectIdString (s : String) : Bool :=
  (s.length == 12) || ((s.length == 24) && s.toList.all isHexChar)

/-- Models `mongoose.Types.ObjectId.isValid` on whole body values: arrays and
null are not valid ids. -/
def jvalIsValidObjectId : JVal → Bool
  | JVal.vStr s => isValidObjectIdString s
  | _ => false

/-- From src/helpers.js line 36: `isValidId` — syntactic validity and then an
awaited `collection.findById`; the lookup is short-circuited away when the
syntax check already fails. `find` returns whether a document with the id
exists; an `Except.error` is a storage fault thrown by the driver. -/
def isValidIdCheck (find : String → Except String Bool) (id : String) : Except String Bool :=
  if isValidObjectIdString id then find id else Except.ok false

/-- From src/helpers.js lines 37-41: the for-of loop of the first variant —
ids are checked in order and the loop stops at the first invalid or missing
one. -/
def validateIdList (find : String → Except String Bool) : List String → Except String Bool
  | [] => Except.ok true
  | id :: rest => do
    let ok ← isValidIdCheck find id
    if ok then validateIdList find rest else pure false

/-- From src/helpers.js lines 33-49: the first `_validateIdInCollection`
variant. A failed element check rejects with the configured `errorMessage`
(a rejected promise returned from inside the try block, which the catch does
not intercept); a storage fault thrown by an awaited `findById` is caught
and rejected as a Database error. `ObjectId.isValid(null)` is false. -/
def idFieldLookup (find : String → Except String Bool) (v : JVal) : Except String Bool :=
  match v with
  | JVal.vArr ids => validateIdList find ids
  | JVal.vStr s => isValidIdCheck find s
  | JVal.vNull => Except.ok false

def _validateIdInCollection (find : String → Except String Bool) (errorMessage : String)
    (v : JVal) : VRes :=
  match idFieldLookup find v with
  | Except.ok true => VRes.pass
  | Except.ok false => VRes.fail errorMessage
  | Except.error e => VRes.fail (("Database error: ") ++ e)

/-- From src/helpers.js lines 241-242 (second variant): the array loop —
`!isValid(id) || !(await findById(id))` element by element, short-circuiting
the lookup when the syntax check fails. -/
def validateIdListV2 (find : String → Except String Bool) : List String → Except String Bool
  | [] => Except.ok true
  | id :: rest => do
    if isValidObjectIdString id then
      let found ← find id
      if found then validateIdListV2 find rest else pure false
    else pure false

/-- From src/helpers.js lines 238-250: the second `_validateIdInCollection`
variant. After the array loop the function falls through (line 244 has no
guarding else) to the single-value line, which checks
`ObjectId.isValid(fieldValue)` — false for any array — and then calls
`collection.findById(id)`, where `id` is not the field value but the binding
imported on line 200 from date-fns/locale; `findAtImportedId` models the
result of that lookup (the cast error the driver throws for it appears as an
`Except.error`). -/
def idFieldLookupV2 (find : String → Except String Bool)
    (findAtImportedId : Except String Bool) (v : JVal) : Except String Bool := do
  let arrOk ← match v with
    | JVal.vArr ids => validateIdListV2 find ids
    | _ => pure true
  if !arrOk then pure false
  else if !(jvalIsValidObjectId v) then pure false
  else do
    let found ← findAtImportedId
    pure found

def _validateIdInCollectionV2 (find : String → Except String Bool)
    (findAtImportedId : Except String Bool) (errorMessage : String) (v : JVal) : VRes :=
  match idFieldLookupV2 find findAtImportedId v with
  | Except.ok true => VRes.pass
  | Except.ok false => VRes.fail errorMessage
  | Except.error e => VRes.fail (("Database error: ") ++ e)

/-- Splitting a character list at a separator (an executable counterpart of
splitting a string, used by the date and email models below). -/
def splitOnCharAux (sep : Char) : List Char → List Char → List (List Char)
  | [], acc => [acc.reverse]
  | c :: cs, acc =>
    cond (c == sep) (acc.reverse :: splitOnCharAux sep cs [])
      (splitOnCharAux sep cs (c :: acc))

def splitOnChar (sep : Char) (l : List Char) : List (List Char) :=
  splitOnCharAux sep l []

/-- Decimal value of a digit list. -/
def digitsToNat (l : List Char) : Nat :=
  l.foldl (fun acc c => acc * 10 + (c.toNat - 48)) 0

/-- Simplified model of `isValid(parseISO(value))` (date-fns, src/helpers.js
lines 58-62) for the date-only ISO form: four digit year, two digit month
01-12, two digit day 01-31. The exact parseISO grammar is immaterial to the
claims proved below. -/
def isIsoDate (s : String) : Bool :=
  match splitOnChar ('-') s.toList with
  | [y, m, d] =>
    (y.length == 4) && y.all Char.isDigit
      && (m.length == 2) && m.all Char.isDigit
      && (d.length == 2) && d.all Char.isDigit
      && Nat.ble 1 (digitsToNat m) && Nat.ble (digitsToNat m) 12
      && Nat.ble 1 (digitsToNat d) && Nat.ble (digitsToNat d) 31
  | _ => false

/-- Simplified model of the external `isEmail` validator (src/index.js line
145): one at-sign separating a nonempty local part from a nonempty domain
containing a dot. The exact grammar is immaterial to the claims below. -/
def isEmailStr (s : String) : Bool :=
  match splitOnChar ('@') s.toList with
  | [lpart, dpart] =>
    (!lpart.isEmpty) && (!dpart.isEmpty) && dpart.any (fun c => c == ('.'))
  | _ => false

/-- From src/index.js line 156: after validation the PATCH handler hashes a
truthy password value before issuing the update. -/
def jvalHashPassword : JVal → JVal
  | JVal.vStr s => JVal.vStr (hashPassword s)
  | w => w

/-- From src/index.js lines 155-156: the matched data sent to `updateOne` —
identical to the validated body except that a truthy password field is
replaced by its hash. -/
def matchedDataTransform (b : ReqBody) : ReqBody :=
  b.map (fun p => cond ((p.1 == ("password")) && jvalTruthy p.2) (p.1, jvalHashPassword p.2) p)

/-- A stored user for concrete evaluations. -/
def sampleUser : User :=
  { username := ("alice1"), password := hashPassword ("old1"), email := ("a@b.c"),
    birthday := some ("2000-01-01"), favourites := [] }

/-- A collection lookup in which every id is present. -/
def allOkFind : String → Except String Bool := fun _ => Except.ok true

/-- A syntactically valid 24-character hex ObjectId. -/
def sampleHexId : String := ("aaaaaaaaaaaaaaaaaaaaaaaa")

/-- The cast error mongoose throws when `findById` receives the imported
date-fns locale object instead of an id. -/
def castError : Except String Bool := Except.error ("CastError: Cast to ObjectId failed")

/-- Result of running one validation chain: skipped (optional, value absent
or excluded), passed, or failed with one recorded message. -/
inductive ChainRes where
  | skip
  | pass
  | fail (msg : String)
deriving DecidableEq

def VRes.lift : VRes → ChainRes
  | VRes.pass => ChainRes.pass
  | VRes.fail m => ChainRes.fail m

def ChainRes.isFail : ChainRes → Bool
  | ChainRes.fail _ => true
  | _ => false

/-- The per-request environment of the user routes: the URL parameter, the
authenticated user installed by the JWT middleware, the parsed body (none
when no body was sent), the database operations the route consults
(`Except.error` models a storage fault thrown by the driver), the
(matchedCount, modifiedCount) pair `updateOne` reports at mutation time, the
deletedCount `deleteOne` reports, and whether the non-awaited insert of the
create path would fault. -/
structure Ctx where
  paramUsername : String
  reqUser : User
  body : Option ReqBody
  usersExists : String → Except String Bool
  moviesFind : String → Except String Bool
  updateResult : Except String (Nat × Nat)
  deleteResult : Except String Nat
  insertFault : Bool

def bodyL (ctx : Ctx) : ReqBody := ctx.body.getD []

/-- From src/helpers.js lines 71-76: `!req.body || keys(req.body).length === 0`. -/
def bodyEmpty (ctx : Ctx) : Bool :=
  match ctx.body with
  | none => true
  | some l => l.isEmpty

def getField (ctx : Ctx) (f : String) : Option JVal := (bodyL ctx).lookup f

/-- Which values make an optional chain skip: express-validator's
`optional` with falsy values skips absent and falsy values; plain
`optional` skips only absent values. -/
inductive OptKind where
  | falsy
  | undef
deriving DecidableEq

def optRun (k : OptKind) (v : Option JVal) (f : JVal → VRes) : ChainRes :=
  match v with
  | none => ChainRes.skip
  | some w =>
    match k with
    | OptKind.falsy => cond (jvalTruthy w) (VRes.lift (f w)) ChainRes.skip
    | OptKind.undef => VRes.lift (f w)

/-- One express-validator chain of a route's middleware array: its name (for
the evaluation trace), whether its custom check consults the database,
whether it carries `bail` at request level, and what running it in a request
context yields. -/
structure Chain where
  name : String
  touchesDb : Bool
  bailReq : Bool
  run : Ctx → ChainRes

/-- From the middleware arrays of src/index.js (lines 114-119 and 135-151):
run the declared chains in order. A chain may skip, pass, or record its
error message; a failing chain declared with request-level bail stops every
later chain of the request. Returns the recorded messages in order together
with the names of the chains whose check actually ran. -/
def runChains (ctx : Ctx) : List Chain → List String × List String
  | [] => ([], [])
  | c :: cs =>
    match c.run ctx with
    | ChainRes.skip => runChains ctx cs
    | ChainRes.pass =>
      let r := runChains ctx cs
      (r.1, c.name :: r.2)
    | ChainRes.fail m =>
      if c.bailReq then ([m], [c.name])
      else
        let r := runChains ctx cs
        (m :: r.1, c.name :: r.2)

/-- The user-resource fields with registered body validators; `checkExact`
treats anything else in the body as unknown. -/
def recognizedFields : List String :=
  [("username"), ("email"), ("password"), ("birthday"), ("favourites")]

/-- Modelled from the spec: `_validateFavourites` is imported by src/index.js
but its definition is absent from src/. Per spec sections 4.1 and 4.2 it is
the cross-reference check of the submitted favourites ids against the movie
collection, failing fast with one collection-appropriate error message; it
is embedded as the first-variant `_validateIdInCollection` applied to the
movie lookup. -/
def favouritesErrorMessage : String :=
  ("At least one favourite movie does not exist in the database.")

def _validateFavouritesRun (ctx : Ctx) (v : JVal) : VRes :=
  _validateIdInCollection ctx.moviesFind favouritesErrorMessage v

/-- src/index.js line 138 (and line 116 of the DELETE route):
`_validateUsername(param)` with request-level bail; consults the user
collection. -/
def usernameParamChain : Chain :=
  { name := ("usernameParam"), touchesDb := true, bailReq := true,
    run := fun ctx =>
      VRes.lift (_validateUsername ReqPart.param ctx.usersExists ctx.paramUsername) }

/-- src/index.js lines 139-141: the PATCH ownership check with request-level
bail — the URL username must equal the authenticated username. -/
def ownershipPatchChain : Chain :=
  { name := ("ownership"), touchesDb := false, bailReq := true,
    run := fun ctx =>
      cond (ctx.paramUsername == ctx.reqUser.username) ChainRes.pass
        (ChainRes.fail ("You are not allowed to update this user!")) }

/-- src/index.js line 142: changed-check for a submitted username (optional,
falsy values skipped; request-level bail). -/
def usernameChangedChain : Chain :=
  { name := ("usernameChanged"), touchesDb := false, bailReq := true,
    run := fun ctx => optRun OptKind.falsy (getField ctx ("username"))
      (fun v => _validateFieldUnchangedRun ctx.reqUser ("username") v) }

/-- src/index.js line 143: `_validateUsername(body)` — the submitted new
username must not already exist; consults the user collection. -/
def usernameBodyChain : Chain :=
  { name := ("usernameBody"), touchesDb := true, bailReq := true,
    run := fun ctx => optRun OptKind.falsy (getField ctx ("username"))
      (fun v => _validateUsername ReqPart.body ctx.usersExists (jvalAsStr v)) }

/-- src/index.js line 144: changed-check for a submitted email. -/
def emailChangedChain : Chain :=
  { name := ("emailChanged"), touchesDb := false, bailReq := true,
    run := fun ctx => optRun OptKind.falsy (getField ctx ("email"))
      (fun v => _validateFieldUnchangedRun ctx.reqUser ("email") v) }

/-- src/index.js line 145: `isEmail` format check on a submitted email. -/
def emailFormatChain : Chain :=
  { name := ("emailFormat"), touchesDb := false, bailReq := true,
    run := fun ctx => optRun OptKind.falsy (getField ctx ("email"))
      (fun v => cond (isEmailStr (jvalAsStr v)) VRes.pass
        (VRes.fail ("Email does not appear to be valid"))) }

/-- src/index.js line 146: changed-check for a submitted password. -/
def passwordChangedChain : Chain :=
  { name := ("passwordChanged"), touchesDb := false, bailReq := true,
    run := fun ctx => optRun OptKind.falsy (getField ctx ("password"))
      (fun v => _validateFieldUnchangedRun ctx.reqUser ("password") v) }

/-- src/index.js line 147: changed-check for a submitted birthday. -/
def birthdayChangedChain : Chain :=
  { name := ("birthdayChanged"), touchesDb := false, bailReq := true,
    run := fun ctx => optRun OptKind.falsy (getField ctx ("birthday"))
      (fun v => _validateFieldUnchangedRun ctx.reqUser ("birthday") v) }

/-- src/index.js line 148: `_valiDate` on a submitted birthday (optional with
undefined values only; note the message's spelling follows the source). -/
def birthdayDateChain : Chain :=
  { name := ("birthdayDate"), touchesDb := false, bailReq := true,
    run := fun ctx => optRun OptKind.undef (getField ctx ("birthday"))
      (fun v => cond (isIsoDate (jvalAsStr v)) VRes.pass
        (VRes.fail ("Birthday is not a vaild date"))) }

/-- src/index.js line 149: changed-check for a submitted favourites list. -/
def favouritesChangedChain : Chain :=
  { name := ("favouritesChanged"), touchesDb := false, bailReq := true,
    run := fun ctx => optRun OptKind.undef (getField ctx ("favourites"))
      (fun v => _validateFieldUnchangedRun ctx.reqUser ("favourites") v) }

/-- src/index.js line 150: `_validateFavourites()` — no request-level bail;
consults the movie collection. -/
def favouritesExistChain : Chain :=
  { name := ("favouritesExist"), touchesDb := true, bailReq := false,
    run := fun ctx => optRun OptKind.undef (getField ctx ("favourites"))
      (fun v => _validateFavouritesRun ctx v) }

/-- src/index.js line 151: `checkExact` — fails when the body contains a
field outside the recognized set. -/
def checkExactChain : Chain :=
  { name := ("checkExact"), touchesDb := false, bailReq := false,
    run := fun ctx =>
      cond ((bodyL ctx).all (fun p => recognizedFields.contains p.1)) ChainRes.pass
        (ChainRes.fail ("Request body contains unknown fields.")) }

/-- src/index.js lines 135-151: the declared chain order of
PATCH /users/:username (after the JWT middleware and `_checkBodyEmpty`). -/
def patchChains : List Chain :=
  [usernameParamChain, ownershipPatchChain, usernameChangedChain, usernameBodyChain,
   emailChangedChain, emailFormatChain, passwordChangedChain, birthdayChangedChain,
   birthdayDateChain, favouritesChangedChain, favouritesExistChain, checkExactChain]

/-- The outward-visible result of a route: HTTP status, response text, and
the names of the validators that actually ran. -/
structure RouteOut where
  status : Nat
  msg : String
  evald : List String

/-- From src/index.js lines 135-163: the PATCH /users/:username handler.
`_checkBodyEmpty` answers 400 before any validator runs; otherwise the
chains run in declared order and a nonempty validation-error list is
surfaced as 422 with the first error's message (the catch checks the
message is truthy and otherwise falls back to the generic 500 branch, whose
stringified error is abbreviated here). With no validation errors the
handler hashes a truthy password, issues `updateOne`, and reports 404
exactly when the reported modifiedCount is zero. -/
def patchRoute (ctx : Ctx) : RouteOut :=
  if bodyEmpty ctx then { status := 400, msg := ("My Body Is Nobody"), evald := [] }
  else
    let r := runChains ctx patchChains
    match r.1 with
    | m :: _ =>
      if m == ("") then { status := 500, msg := ("Database error: ValidationError"), evald := r.2 }
      else { status := 422, msg := m, evald := r.2 }
    | [] =>
      match ctx.updateResult with
      | Except.error e => { status := 500, msg := ("Database error: ") ++ e, evald := r.2 }
      | Except.ok mm =>
        if mm.2 == 0 then
          { status := 404, msg := ctx.paramUsername ++ (" was not found."), evald := r.2 }
        else
          { status := 200, msg := ("Successfully updated user ") ++ ctx.paramUsername, evald := r.2 }

/-- src/index.js lines 117-119: the DELETE ownership check — declared
without bail, so it does not stop later chains (none follow it). -/
def ownershipDeleteChain : Chain :=
  { name := ("ownershipDelete"), touchesDb := false, bailReq := false,
    run := fun ctx =>
      cond (ctx.paramUsername == ctx.reqUser.username) ChainRes.pass
        (ChainRes.fail ("You are not allowed to delete this user!")) }

/-- src/index.js lines 114-119: the declared chain order of
DELETE /users/:username (after the JWT middleware). -/
def deleteChains : List Chain := [usernameParamChain, ownershipDeleteChain]

/-- From src/index.js lines 114-130: the DELETE /users/:username handler. A
nonempty validation-error list is surfaced as 422 with the first error's
message; otherwise `deleteOne` runs and a zero deletedCount is a 404. -/
def deleteRoute (ctx : Ctx) : RouteOut :=
  let r := runChains ctx deleteChains
  match r.1 with
  | m :: _ =>
    if m == ("") then { status := 500, msg := ("Database error: ValidationError"), evald := r.2 }
    else { status := 422, msg := m, evald := r.2 }
  | [] =>
    match ctx.deleteResult with
    | Except.error e => { status := 500, msg := ("Database error: ") ++ e, evald := r.2 }
    | Except.ok deleted =>
      if deleted == 0 then
        { status := 404, msg := ctx.paramUsername ++ (" wasn\x27t found."), evald := r.2 }
      else { status := 200, msg := ctx.paramUsername ++ (" was deleted."), evald := r.2 }

/-- From src/helpers.js lines 169-177: `data.x = data.x ? data.x : null` — a
falsy or absent optional field is stored as an explicit null. -/
def defaultNullField (b : ReqBody) (f : String) : ReqBody :=
  match b.lookup f with
  | some v => cond (jvalTruthy v) b (b.map (fun p => cond (p.1 == f) (p.1, JVal.vNull) p))
  | none => b ++ [(f, JVal.vNull)]

/-- From src/helpers.js line 168: the creation path hashes the submitted
password unconditionally. -/
def hashPasswordField (b : ReqBody) : ReqBody :=
  b.map (fun p => cond (p.1 == ("password")) (p.1, jvalHashPassword p.2) p)

/-- From src/helpers.js lines 167-180: the per-resource defaulting and
derivation applied before `collection.create`; `none` corresponds to the
thrown Unknown identifier error. -/
def createTransform (identifier : String) (b : ReqBody) : Option ReqBody :=
  if identifier == ("user") then
    some (defaultNullField (defaultNullField (hashPasswordField b) ("birthday")) ("favourites"))
  else if identifier == ("movie") then some (defaultNullField b ("imagePath"))
  else if identifier == ("genre") then some (defaultNullField b ("description"))
  else if identifier == ("director") then
    some (defaultNullField (defaultNullField b ("deathday")) ("biography"))
  else none

/-- From src/helpers.js lines 163-187: `_createDocument`. `errors` is the
validation result carried by the request; a nonempty list is answered 422
with its first message (500 when that message is not truthy). With no
errors the data is transformed and `collection.create(data)` is issued
without await: `insertFault` — whether that insert would fail — is a
parameter the response computation never consults, and the 201
acknowledgement is sent unconditionally. A transform for an unknown
identifier throws, which the catch turns into a 500. -/
def _createDocument (errors : List String) (identifier : String) (b : ReqBody)
    (_insertFault : Bool) : Nat × String :=
  match errors with
  | m :: _ =>
    if m == ("") then (500, ("Database error: ValidationError"))
    else (422, m)
  | [] =>
    match createTransform identifier b with
    | none => (500, ("Database error: Error: Unknown identifier: ") ++ identifier)
    | some _persisted => (201, identifier ++ (" was created."))

/-- Modelled from the spec: `_dynamicRouteValidation` is imported by
src/index.js but absent from src/. Per spec sections 4.1 and 4.3 it runs the
user-creation field chains — username asserted as new, email format,
birthday date, favourites cross-reference — in declared order with the same
fail-fast policy, followed by the strict-schema check. -/
def createUserChains : List Chain :=
  [ { name := ("createUsername"), touchesDb := true, bailReq := true,
      run := fun ctx => optRun OptKind.undef (getField ctx ("username"))
        (fun v => _validateUsername ReqPart.body ctx.usersExists (jvalAsStr v)) },
    { name := ("createEmail"), touchesDb := false, bailReq := true,
      run := fun ctx => optRun OptKind.undef (getField ctx ("email"))
        (fun v => cond (isEmailStr (jvalAsStr v)) VRes.pass
          (VRes.fail ("Email does not appear to be valid"))) },
    { name := ("createBirthday"), touchesDb := false, bailReq := true,
      run := fun ctx => optRun OptKind.undef (getField ctx ("birthday"))
        (fun v => cond (isIsoDate (jvalAsStr v)) VRes.pass
          (VRes.fail ("Birthday is not a vaild date"))) },
    { name := ("createFavourites"), touchesDb := true, bailReq := false,
      run := fun ctx => optRun OptKind.undef (getField ctx ("favourites"))
        (fun v => _validateFavouritesRun ctx v) },
    checkExactChain ]

/-- From src/index.js lines 79-84 with src/helpers.js lines 71-76 and
163-187: POST /users — the empty-body check first, then the creation
validation, then `_createDocument` on the user collection. -/
def postUsersRoute (ctx : Ctx) : RouteOut :=
  if bodyEmpty ctx then { status := 400, msg := ("My Body Is Nobody"), evald := [] }
  else
    let r := runChains ctx createUserChains
    let out := _createDocument r.1 ("user") (bodyL ctx) ctx.insertFault
    { status := out.1, msg := out.2, evald := r.2 }

/-- Every chain of the PATCH route that is not followed by request-level
bail leaves only database-free chains after it. -/
def chainsNoDbAfterNonBail : List Chain → Bool
  | [] => true
  | c :: cs => (c.bailReq || cs.all (fun d => !d.touchesDb)) && chainsNoDbAfterNonBail cs

/-- Context: authenticated caller alice1 asking to delete existing user
bobby. -/
def deleteForeignCtx : Ctx :=
  { paramUsername := ("bobby"), reqUser := sampleUser, body := none,
    usersExists := allOkFind, moviesFind := allOkFind,
    updateResult := Except.ok (1, 1), deleteResult := Except.ok 1, insertFault := false }

/-- Context: a validated PATCH that matches its target but modifies nothing —
the stored birthday already equals the submitted one, so `updateOne` reports
matchedCount 1 and modifiedCount 0. -/
def patchNoopCtx : Ctx :=
  { paramUsername := ("alice1"), reqUser := sampleUser,
    body := some [(("birthday"), JVal.vStr ("2000-01-01"))],
    usersExists := allOkFind, moviesFind := allOkFind,
    updateResult := Except.ok (1, 0), deleteResult := Except.ok 1, insertFault := false }

/-- Context: a PATCH submitting the currently stored password, with all
earlier chains passing or skipping. -/
def patchSamePasswordCtx : Ctx :=
  { paramUsername := ("alice1"), reqUser := sampleUser,
    body := some [(("password"), JVal.vStr ("old1"))],
    usersExists := allOkFind, moviesFind := allOkFind,
    updateResult := Except.ok (1, 1), deleteResult := Except.ok 1, insertFault := false }

/-- Context: a PATCH payload containing an unrecognized field. -/
def patchUnknownFieldCtx : Ctx :=
  { paramUsername := ("alice1"), reqUser := sampleUser,
    body := some [(("nickname"), JVal.vStr ("al"))],
    usersExists := allOkFind, moviesFind := allOkFind,
    updateResult := Except.ok (1, 1), deleteResult := Except.ok 1, insertFault := false }

/-- Context with an absent request body. -/
def emptyBodyCtx : Ctx :=
  { paramUsername := ("alice1"), reqUser := sampleUser, body := none,
    usersExists := allOkFind, moviesFind := allOkFind,
    updateResult := Except.ok (1, 1), deleteResult := Except.ok 1, insertFault := false }

end Myflix

namespace Myflix

theorem favChangedLoop_eq_zipAny (n s : List String) :
    favChangedLoop n s = (n.zip s).any (fun p => p.1 != p.2) := by
  induction n generalizing s with
  | nil => cases s <;> rfl
  | cons a as ih =>
    cases s with
    | nil => rfl
    | cons b bs => simp [favChangedLoop, List.zip, ih bs]

theorem favouritesChangedV2_eq (n s : List String) :
    favouritesChangedV2 n s = favouritesChanged n s := by
  unfold favouritesChangedV2 favouritesChanged
  rw [favChangedLoop_eq_zipAny]
  cases h : (n.length != s.length) <;> simp

theorem favouritesChanged_false_iff (n s : List String) :
    favouritesChanged n s = false ↔ n = s := by
  induction n generalizing s with
  | nil =>
    cases s with
    | nil => simp [favouritesChanged]
    | cons b bs => simp [favouritesChanged]
  | cons a as ih =>
    cases s with
    | nil => simp [favouritesChanged]
    | cons b bs =>
      have h1 : favouritesChanged (a :: as) (b :: bs)
          = ((as.length != bs.length) || ((a != b) || (as.zip bs).any (fun p => p.1 != p.2))) := by
        simp [favouritesChanged, List.zip]
      rw [h1]
      constructor
      · intro h
        simp only [Bool.or_eq_false_iff, bne_eq_false_iff_eq] at h
        obtain ⟨hlen, hab, hrest⟩ := h
        have : favouritesChanged as bs = false := by
          simp [favouritesChanged, hlen, hrest]
        rw [ih bs] at this
        rw [hab, this]
      · intro h
        injection h with hab hrest
        subst hab; subst hrest
        have h2 : favouritesChanged as as = false := (ih as).mpr rfl
        rw [favouritesChanged, Bool.or_eq_false_iff] at h2
        obtain ⟨hl, hz⟩ := h2
        simp [hl, hz]

theorem zipAny_iff_exists (n s : List String) :
    ((n.zip s).any (fun p => p.1 != p.2) = true)
      ↔ ∃ i, i < n.length ∧ i < s.length ∧ n.getD i ("") ≠ s.getD i ("") := by
  induction n generalizing s with
  | nil => simp
  | cons a as ih =>
    cases s with
    | nil => simp
    | cons b bs =>
      simp only [List.zip, List.zipWith, List.any_cons, Bool.or_eq_true, bne_iff_ne, ne_eq]
      constructor
      · intro h
        rcases h with h | h
        · exact ⟨0, by simp, by simp, by simpa using h⟩
        · obtain ⟨i, h1, h2, h3⟩ := (ih bs).mp h
          exact ⟨i + 1, by simpa using h1, by simpa using h2, by simpa using h3⟩
      · rintro ⟨i, h1, h2, h3⟩
        cases i with
        | zero => left; simpa using h3
        | succ j =>
          right
          exact (ih bs).mpr ⟨j, by simpa using h1, by simpa using h2, by simpa using h3⟩

/-- C2: a submitted favourites list counts as changed exactly when it has a
different length than the stored list or differs from it at some shared
position (string comparison); equivalently, it is reported unchanged exactly
when it is the identical list, so a permutation of the stored list is
accepted as changed. The second variant of the helper computes the same
predicate. -/
theorem favourites_change_criterion (newIds stored : List String) :
    (favouritesChanged newIds stored = true
      ↔ newIds.length ≠ stored.length
        ∨ ∃ i, i < newIds.length ∧ i < stored.length
            ∧ newIds.getD i ("") ≠ stored.getD i (""))
    ∧ (favouritesChanged newIds stored = false ↔ newIds = stored)
    ∧ favouritesChangedV2 newIds stored = favouritesChanged newIds stored := by
  refine ⟨?_, favouritesChanged_false_iff newIds stored, favouritesChangedV2_eq newIds stored⟩
  unfold favouritesChanged
  rw [Bool.or_eq_true]
  constructor
  · intro h
    rcases h with h | h
    · left; simpa using h
    · right; exact (zipAny_iff_exists newIds stored).mp h
  · intro h
    rcases h with h | h
    · left; simpa using h
    · right; exact (zipAny_iff_exists newIds stored).mpr h

/-- C4: both variants of the username validator check the length bound first,
then the alphanumeric constraint, and only then consult the database, with
the polarity of the existence check determined by where the value came from:
a request-body username is rejected when it already exists, a URL-parameter
username is rejected when it does not exist. -/
theorem username_validation_order (part : ReqPart) (f : String → Except String Bool)
    (u : String) (b : Bool) (hf : f u = Except.ok b) :
    (u.length < 5 →
      _validateUsername part f u = VRes.fail ("The username must be at least 5 characters long.")
      ∧ _validateUsernameV2 part f u = VRes.fail ("The username must be at least 5 characters long."))
    ∧ (5 ≤ u.length → usernameAlnum u = false →
      _validateUsername part f u
          = VRes.fail ("The username contains non alphanumeric characters - not allowed.")
      ∧ _validateUsernameV2 part f u
          = VRes.fail ("The username contains non alphanumeric characters - not allowed."))
    ∧ (5 ≤ u.length → usernameAlnum u = true → part = ReqPart.body →
      ((_validateUsername part f u = VRes.pass) ↔ b = false)
      ∧ ((_validateUsernameV2 part f u = VRes.pass) ↔ b = false))
    ∧ (5 ≤ u.length → usernameAlnum u = true → part = ReqPart.param →
      ((_validateUsername part f u = VRes.pass) ↔ b = true)
      ∧ ((_validateUsernameV2 part f u = VRes.pass) ↔ b = true)) := by
  refine ⟨?_, ?_, ?_, ?_⟩
  · intro h
    constructor <;> simp [_validateUsername, _validateUsernameV2, h]
  · intro h5 halnum
    have hnl : ¬ u.length < 5 := Nat.not_lt.mpr h5
    constructor <;> simp [_validateUsername, _validateUsernameV2, hnl, halnum]
  · intro h5 halnum hpart
    subst hpart
    have hnl : ¬ u.length < 5 := Nat.not_lt.mpr h5
    constructor <;> cases b <;>
      simp [_validateUsername, _validateUsernameV2, hnl, halnum, hf]
  · intro h5 halnum hpart
    subst hpart
    have hnl : ¬ u.length < 5 := Nat.not_lt.mpr h5
    constructor <;> cases b <;>
      simp [_validateUsername, _validateUsernameV2, hnl, halnum, hf]

/-- Closed instances of the previous theorem: a four-character username is
rejected with the length message by both variants, and a well-formed fresh
username passes the body-context validator. -/
theorem username_validation_order_witness :
    _validateUsername ReqPart.body allOkFind ("abcd")
        = VRes.fail ("The username must be at least 5 characters long.")
    ∧ (_validateUsername ReqPart.param allOkFind ("abcde") = VRes.pass) := by
  constructor
  · exact ((username_validation_order ReqPart.body allOkFind ("abcd") true rfl).1
      (by decide)).1
  · exact (((username_validation_order ReqPart.param allOkFind ("abcde") true rfl).2.2.2
      (by decide) (by decide) rfl).1).mpr rfl

theorem lookup_matchedDataTransform (b : ReqBody) (plain : String) (hp : plain ≠ (""))
    (hmem : b.lookup ("password") = some (JVal.vStr plain)) :
    (matchedDataTransform b).lookup ("password") = some (JVal.vStr (hashPassword plain)) := by
  induction b with
  | nil => simp [List.lookup] at hmem
  | cons q rest ih =>
    obtain ⟨k, v⟩ := q
    rw [matchedDataTransform, List.map]
    by_cases hk : k = ("password")
    · subst hk
      simp only [List.lookup, beq_self_eq_true] at hmem
      rw [Option.some_inj] at hmem
      subst hmem
      have hie : plain.isEmpty = false := by
        cases hie : plain.isEmpty
        · rfl
        · exact absurd ((String.isEmpty_iff plain).mp hie) hp
      simp [List.lookup, jvalTruthy, jvalHashPassword, hie]
    · have hbeq : (("password" : String) == k) = false := beq_eq_false_iff_ne.mpr (Ne.symm hk)
      have hbeq2 : (k == ("password")) = false := beq_eq_false_iff_ne.mpr hk
      simp only [List.lookup, hbeq] at hmem
      have hrec := ih hmem
      rw [matchedDataTransform] at hrec
      simp [List.lookup, hbeq, hbeq2, hrec]

theorem hashPassword_length (p : String) : (hashPassword p).length = 7 + p.length := by
  have h7 : ("$2b$10$").length = 7 := rfl
  rw [hashPassword, String.length_append, h7]

theorem hashPassword_ne_plain (p : String) : hashPassword p ≠ p := by
  intro h
  have := congrArg String.length h
  rw [hashPassword_length] at this
  omega

/-- C5: an update's password field is rejected exactly when the submitted
plaintext verifies against the stored hash; otherwise the value the handler
persists is the hash of the new plaintext, which differs both from the old
stored hash and from the plaintext itself — the plaintext is never stored. -/
theorem password_update_hashing (u : User) (plain : String) (b : ReqBody)
    (hp : plain ≠ ("")) (hmem : b.lookup ("password") = some (JVal.vStr plain)) :
    (fieldChangedCheck u ("password") (JVal.vStr plain) = false
      ↔ validatePassword plain u.password = true)
    ∧ (validatePassword plain u.password = false →
        (matchedDataTransform b).lookup ("password") = some (JVal.vStr (hashPassword plain))
        ∧ hashPassword plain ≠ u.password
        ∧ hashPassword plain ≠ plain) := by
  constructor
  · simp [fieldChangedCheck, jvalAsStr]
  · intro hv
    refine ⟨lookup_matchedDataTransform b plain hp hmem, ?_, hashPassword_ne_plain plain⟩
    intro h
    rw [validatePassword] at hv
    rw [← h] at hv
    simp at hv

/-- Closed instance of the previous theorem at a concrete user and payload. -/
theorem password_update_hashing_witness :
    (matchedDataTransform [(("password"), JVal.vStr ("new1"))]).lookup ("password")
        = some (JVal.vStr (hashPassword ("new1")))
      ∧ hashPassword ("new1") ≠ ("new1") := by
  have h := password_update_hashing sampleUser ("new1")
    [(("password"), JVal.vStr ("new1"))] (by decide) rfl
  obtain ⟨-, h2⟩ := h
  obtain ⟨ha, -, hc⟩ := h2 (by decide)
  exact ⟨ha, hc⟩

/-- C7: at a one-element list whose id is syntactically valid and present in
the collection, the first variant of the cross-reference checker accepts, as
the claim states, but the second variant rejects the same list with the
configured error message (its fall-through line applies `ObjectId.isValid`
to the whole array); and on a single valid, present id the second variant
rejects with a Database error, because its `findById` call uses the imported
date-fns locale binding instead of the field value. -/
theorem idcheck_second_variant_diverges :
    _validateIdInCollection allOkFind ("faverr") (JVal.vArr [sampleHexId]) = VRes.pass
    ∧ _validateIdInCollectionV2 allOkFind castError ("faverr") (JVal.vArr [sampleHexId])
        = VRes.fail ("faverr")
    ∧ _validateIdInCollectionV2 allOkFind castError ("faverr") (JVal.vStr sampleHexId)
        = VRes.fail (("Database error: ") ++ ("CastError: Cast to ObjectId failed")) := by
  refine ⟨by decide, by decide, by decide⟩

theorem lit_append_ne (s t : String) (hs : 0 < s.length) : (s ++ t) ≠ ("") := by
  intro h
  have hl := congrArg String.length h
  have h0 : ("" : String).length = 0 := rfl
  rw [String.length_append, h0] at hl
  omega

theorem append_lit_ne (s t : String) (ht : 0 < t.length) : (s ++ t) ≠ ("") := by
  intro h
  have hl := congrArg String.length h
  have h0 : ("" : String).length = 0 := rfl
  rw [String.length_append, h0] at hl
  omega

theorem unchangedMsg_ne (field : String) : unchangedMsg field ≠ ("") :=
  append_lit_ne (field ++ (" is the same as the current ") ++ field) (".") (by decide)

theorem lift_fail {r : VRes} {m : String} (h : VRes.lift r = ChainRes.fail m) :
    r = VRes.fail m := by
  cases r with
  | pass => simp [VRes.lift] at h
  | fail m0 =>
    simp only [VRes.lift] at h
    injection h with h1
    rw [h1]

theorem optRun_fail {k : OptKind} {v : Option JVal} {g : JVal → VRes} {m : String}
    (h : optRun k v g = ChainRes.fail m) : ∃ w, g w = VRes.fail m := by
  cases v with
  | none => simp [optRun] at h
  | some w =>
    cases k with
    | falsy =>
      cases ht : jvalTruthy w
      · simp [optRun, ht] at h
      · simp only [optRun, ht, cond_true] at h
        exact ⟨w, lift_fail h⟩
    | undef =>
      simp only [optRun] at h
      exact ⟨w, lift_fail h⟩

theorem validateUsername_fail_ne (part : ReqPart) (f : String → Except String Bool)
    (u m : String) (h : _validateUsername part f u = VRes.fail m) : m ≠ ("") := by
  unfold _validateUsername at h
  split at h
  · injection h with h1; rw [← h1]; decide
  · split at h
    · injection h with h1; rw [← h1]; decide
    · cases hex : f u with
      | error e =>
        simp only [hex] at h
        injection h with h1
        rw [← h1]
        exact lit_append_ne ("Database error: ") e (by decide)
      | ok uex =>
        simp only [hex] at h
        split at h
        · injection h with h1
          rw [← h1]
          exact append_lit_ne _ (" in the database.") (by decide)
        · exact VRes.noConfusion h

theorem fieldUnchangedRun_fail_ne (u : User) (field : String) (v : JVal) (m : String)
    (h : _validateFieldUnchangedRun u field v = VRes.fail m) : m ≠ ("") := by
  unfold _validateFieldUnchangedRun at h
  split at h
  · exact VRes.noConfusion h
  · injection h with h1
    rw [← h1]
    exact unchangedMsg_ne field

theorem validateIdInCollection_fail_ne (find : String → Except String Bool)
    (em : String) (hem : em ≠ ("")) (v : JVal) (m : String)
    (h : _validateIdInCollection find em v = VRes.fail m) : m ≠ ("") := by
  unfold _validateIdInCollection at h
  cases hin : idFieldLookup find v with
  | error e =>
    simp only [hin] at h
    injection h with h1
    rw [← h1]
    exact lit_append_ne ("Database error: ") e (by decide)
  | ok b =>
    cases b
    · simp only [hin] at h
      injection h with h1
      rw [← h1]
      exact hem
    · simp only [hin] at h
      exact VRes.noConfusion h

theorem patch_chain_msgs_ne (ctx : Ctx) (c : Chain) (hc : c ∈ patchChains) (m : String)
    (h : c.run ctx = ChainRes.fail m) : m ≠ ("") := by
  simp only [patchChains, List.mem_cons, List.not_mem_nil, or_false] at hc
  rcases hc with rfl | rfl | rfl | rfl | rfl | rfl | rfl | rfl | rfl | rfl | rfl | rfl
  · simp only [usernameParamChain] at h
    exact validateUsername_fail_ne _ _ _ _ (lift_fail h)
  · simp only [ownershipPatchChain] at h
    cases hbe : (ctx.paramUsername == ctx.reqUser.username) <;>
      simp only [hbe, cond_true, cond_false] at h
    · injection h with h1; rw [← h1]; decide
    · exact ChainRes.noConfusion h
  · simp only [usernameChangedChain] at h
    obtain ⟨w, hw⟩ := optRun_fail h
    exact fieldUnchangedRun_fail_ne _ _ _ _ hw
  · simp only [usernameBodyChain] at h
    obtain ⟨w, hw⟩ := optRun_fail h
    exact validateUsername_fail_ne _ _ _ _ hw
  · simp only [emailChangedChain] at h
    obtain ⟨w, hw⟩ := optRun_fail h
    exact fieldUnchangedRun_fail_ne _ _ _ _ hw
  · simp only [emailFormatChain] at h
    obtain ⟨w, hw⟩ := optRun_fail h
    cases hbe : isEmailStr (jvalAsStr w) <;> simp only [hbe, cond_true, cond_false] at hw
    · injection hw with h1; rw [← h1]; decide
    · exact VRes.noConfusion hw
  · simp only [passwordChangedChain] at h
    obtain ⟨w, hw⟩ := optRun_fail h
    exact fieldUnchangedRun_fail_ne _ _ _ _ hw
  · simp only [birthdayChangedChain] at h
    obtain ⟨w, hw⟩ := optRun_fail h
    exact fieldUnchangedRun_fail_ne _ _ _ _ hw
  · simp only [birthdayDateChain] at h
    obtain ⟨w, hw⟩ := optRun_fail h
    cases hbe : isIsoDate (jvalAsStr w) <;> simp only [hbe, cond_true, cond_false] at hw
    · injection hw with h1; rw [← h1]; decide
    · exact VRes.noConfusion hw
  · simp only [favouritesChangedChain] at h
    obtain ⟨w, hw⟩ := optRun_fail h
    exact fieldUnchangedRun_fail_ne _ _ _ _ hw
  · simp only [favouritesExistChain] at h
    obtain ⟨w, hw⟩ := optRun_fail h
    unfold _validateFavouritesRun at hw
    exact validateIdInCollection_fail_ne _ _ (by decide) _ _ hw
  · simp only [checkExactChain] at h
    cases hbe : ((bodyL ctx).all fun p => recognizedFields.contains p.1) <;>
      simp only [hbe, cond_true, cond_false] at h
    · injection h with h1; rw [← h1]; decide
    · exact ChainRes.noConfusion h

theorem runChains_err_mem (ctx : Ctx) :
    ∀ (cs : List Chain) (m : String), m ∈ (runChains ctx cs).1 →
      ∃ c, c ∈ cs ∧ c.run ctx = ChainRes.fail m := by
  intro cs
  induction cs with
  | nil => intro m h; simp [runChains] at h
  | cons c cs ih =>
    intro m h
    cases hr : c.run ctx with
    | skip =>
      simp only [runChains, hr] at h
      obtain ⟨c', hc', hc2⟩ := ih m h
      exact ⟨c', List.mem_cons_of_mem _ hc', hc2⟩
    | pass =>
      simp only [runChains, hr] at h
      obtain ⟨c', hc', hc2⟩ := ih m h
      exact ⟨c', List.mem_cons_of_mem _ hc', hc2⟩
    | fail m0 =>
      cases hb : c.bailReq
      · simp [runChains, hr, hb] at h
        rcases h with h1 | h1
        · exact ⟨c, List.mem_cons_self c cs, by rw [hr, h1]⟩
        · obtain ⟨c', hc', hc2⟩ := ih m h1
          exact ⟨c', List.mem_cons_of_mem _ hc', hc2⟩
      · simp [runChains, hr, hb] at h
        exact ⟨c, List.mem_cons_self c cs, by rw [hr, h]⟩

theorem runChains_errors_ne_nil (ctx : Ctx) :
    ∀ (cs : List Chain) (c : Chain), c ∈ cs → (c.run ctx).isFail = true →
      (runChains ctx cs).1 ≠ [] := by
  intro cs
  induction cs with
  | nil => intro c hc; simp at hc
  | cons c0 cs ih =>
    intro c hc hf
    rcases List.mem_cons.mp hc with rfl | hmem
    · cases hr : c.run ctx with
      | skip => rw [hr] at hf; simp [ChainRes.isFail] at hf
      | pass => rw [hr] at hf; simp [ChainRes.isFail] at hf
      | fail m => cases hb : c.bailReq <;> simp [runChains, hr, hb]
    · cases hr : c0.run ctx with
      | skip =>
        simp only [runChains, hr]
        exact ih c hmem hf
      | pass =>
        simp only [runChains, hr]
        exact ih c hmem hf
      | fail m => cases hb : c0.bailReq <;> simp [runChains, hr, hb]

theorem runChains_prefix (ctx : Ctx) :
    ∀ (pre rest : List Chain), (∀ d ∈ pre, ((d.run ctx).isFail) = false) →
      (runChains ctx (pre ++ rest)).1 = (runChains ctx rest).1
      ∧ ∀ n ∈ (runChains ctx (pre ++ rest)).2,
          n ∈ pre.map Chain.name ∨ n ∈ (runChains ctx rest).2 := by
  intro pre
  induction pre with
  | nil => intro rest h; exact ⟨rfl, fun n hn => Or.inr hn⟩
  | cons c pcs ih =>
    intro rest h
    have hc := h c (List.mem_cons_self c pcs)
    have hpcs : ∀ d ∈ pcs, ((d.run ctx).isFail) = false :=
      fun d hd => h d (List.mem_cons_of_mem c hd)
    obtain ⟨ih1, ih2⟩ := ih rest hpcs
    cases hr : c.run ctx with
    | skip =>
      refine ⟨?_, ?_⟩
      · simp only [List.cons_append, runChains, hr]
        exact ih1
      · intro n hn
        simp only [List.cons_append, runChains, hr] at hn
        rcases ih2 n hn with h1 | h1
        · exact Or.inl (List.mem_cons_of_mem _ h1)
        · exact Or.inr h1
    | pass =>
      refine ⟨?_, ?_⟩
      · simp only [List.cons_append, runChains, hr]
        exact ih1
      · intro n hn
        simp only [List.cons_append, runChains, hr] at hn
        rcases List.mem_cons.mp hn with h1 | h1
        · exact Or.inl (h1 ▸ List.mem_cons_self _ _)
        · rcases ih2 n h1 with h2 | h2
          · exact Or.inl (List.mem_cons_of_mem _ h2)
          · exact Or.inr h2
    | fail m =>
      rw [hr] at hc
      simp [ChainRes.isFail] at hc

theorem patch_names_nodup : (patchChains.map Chain.name).Nodup := by decide

theorem patch_noDbAfterNonBail : chainsNoDbAfterNonBail patchChains = true := by decide

theorem noDbAfter_split (pre : List Chain) (c : Chain) (post : List Chain)
    (h : chainsNoDbAfterNonBail (pre ++ c :: post) = true) (hb : c.bailReq = false) :
    ∀ d ∈ post, d.touchesDb = false := by
  induction pre with
  | nil =>
    intro d hd
    simp only [List.nil_append, chainsNoDbAfterNonBail, Bool.and_eq_true] at h
    obtain ⟨h1, _h2⟩ := h
    rw [hb] at h1
    simp only [Bool.false_or, List.all_eq_true] at h1
    have := h1 d hd
    simpa using this
  | cons c0 pcs ih =>
    intro d hd
    simp only [List.cons_append, chainsNoDbAfterNonBail, Bool.and_eq_true] at h
    exact ih h.2 d hd

/-- C1: when the chains of the PATCH route are split around the first
failing chain (every earlier chain passes or skips) on a payload of
recognized fields, the request is rejected with HTTP 422 carrying exactly
that chain's message, and no database-consulting validator after the
failing one is evaluated. -/
theorem patch_first_failure_shortcircuits (ctx : Ctx) (pre post : List Chain) (c : Chain)
    (m : String)
    (hsplit : patchChains = pre ++ c :: post)
    (hbody : bodyEmpty ctx = false)
    (_hrec : ((bodyL ctx).all fun p => recognizedFields.contains p.1) = true)
    (hpre : ∀ d ∈ pre, ((d.run ctx).isFail) = false)
    (hfail : c.run ctx = ChainRes.fail m) :
    (patchRoute ctx).status = 422 ∧ (patchRoute ctx).msg = m
    ∧ ∀ d ∈ post, d.touchesDb = true → d.name ∉ (patchRoute ctx).evald := by
  obtain ⟨hpres, hev⟩ := runChains_prefix ctx pre (c :: post) hpre
  have hcin : c ∈ patchChains := by
    rw [hsplit]
    exact List.mem_append_right pre (List.mem_cons_self c post)
  have hm : m ≠ ("") := patch_chain_msgs_ne ctx c hcin m hfail
  have hbeqm : (m == ("")) = false := beq_eq_false_iff_ne.mpr hm
  have herr : ∃ tl, (runChains ctx patchChains).1 = m :: tl := by
    rw [hsplit, hpres]
    cases hb : c.bailReq
    · exact ⟨(runChains ctx post).1, by simp [runChains, hfail, hb]⟩
    · exact ⟨[], by simp [runChains, hfail, hb]⟩
  obtain ⟨tl, htl⟩ := herr
  have hroute : patchRoute ctx
      = { status := 422, msg := m, evald := (runChains ctx patchChains).2 } := by
    unfold patchRoute
    simp [hbody, htl, hbeqm]
  refine ⟨by rw [hroute], by rw [hroute], ?_⟩
  intro d hd htdb habs
  cases hb : c.bailReq
  · have hnodb := noDbAfter_split pre c post (hsplit ▸ patch_noDbAfterNonBail) hb d hd
    rw [hnodb] at htdb
    exact Bool.noConfusion htdb
  · rw [hroute] at habs
    rw [hsplit] at habs
    have hev2 := hev d.name habs
    have htail : (runChains ctx (c :: post)).2 = [c.name] := by
      simp [runChains, hfail, hb]
    rw [htail] at hev2
    have hnodup : ((pre ++ c :: post).map Chain.name).Nodup := by
      rw [← hsplit]
      exact patch_names_nodup
    rw [List.map_append, List.map_cons, List.nodup_append] at hnodup
    obtain ⟨_hn1, hn2, hdisj⟩ := hnodup
    have hdname : d.name ∈ post.map Chain.name := List.mem_map_of_mem Chain.name hd
    rcases hev2 with h1 | h1
    · exact hdisj h1 (List.mem_cons_of_mem _ hdname)
    · have hdc : d.name = c.name := List.mem_singleton.mp h1
      rw [List.nodup_cons] at hn2
      exact hn2.1 (hdc ▸ hdname)

/-- Closed instance of the short-circuit theorem: submitting the currently
stored password makes the password chain the first failure; the response is
a 422 with that chain's message and the database-consulting chains after it
are not evaluated. -/
theorem patch_first_failure_shortcircuits_witness :
    (patchRoute patchSamePasswordCtx).status = 422
    ∧ (patchRoute patchSamePasswordCtx).msg
        = ("password is the same as the current password.")
    ∧ ∀ d ∈ [birthdayChangedChain, birthdayDateChain, favouritesChangedChain,
        favouritesExistChain, checkExactChain],
        d.touchesDb = true → d.name ∉ (patchRoute patchSamePasswordCtx).evald :=
  patch_first_failure_shortcircuits patchSamePasswordCtx
    [usernameParamChain, ownershipPatchChain, usernameChangedChain, usernameBodyChain,
     emailChangedChain, emailFormatChain]
    [birthdayChangedChain, birthdayDateChain, favouritesChangedChain,
     favouritesExistChain, checkExactChain]
    passwordChangedChain ("password is the same as the current password.")
    rfl rfl (by decide) (by decide) (by decide)

/-- C3 (amended): deleting another user's record is rejected with HTTP 422 —
the ownership failure (or any earlier username-validation failure on the
URL parameter) is surfaced through the validation-error branch, never as
403 Forbidden. -/
theorem delete_foreign_user_rejected_422 (ctx : Ctx)
    (h : ctx.paramUsername ≠ ctx.reqUser.username) :
    (deleteRoute ctx).status = 422 := by
  have hbe : (ctx.paramUsername == ctx.reqUser.username) = false := beq_eq_false_iff_ne.mpr h
  cases hr : _validateUsername ReqPart.param ctx.usersExists ctx.paramUsername with
  | pass =>
    have hrun : (runChains ctx deleteChains).1
        = [("You are not allowed to delete this user!")] := by
      simp [runChains, deleteChains, usernameParamChain, ownershipDeleteChain,
        VRes.lift, hr, hbe]
    have hbm : ((("You are not allowed to delete this user!") : String) == ("")) = false := by
      decide
    unfold deleteRoute
    simp [hrun, hbm]
  | fail m =>
    have hm : m ≠ ("") := validateUsername_fail_ne _ _ _ _ hr
    have hbeqm : (m == ("")) = false := beq_eq_false_iff_ne.mpr hm
    have hrun : (runChains ctx deleteChains).1 = [m] := by
      simp [runChains, deleteChains, usernameParamChain, VRes.lift, hr]
    unfold deleteRoute
    simp [hrun, hbeqm]

/-- C3 (counterexample): caller alice1 deleting the existing user bobby
receives HTTP 422 with the ownership message, not the 403 the claim
states. -/
theorem delete_foreign_user_not_403 :
    deleteForeignCtx.reqUser.username ≠ deleteForeignCtx.paramUsername
    ∧ (deleteRoute deleteForeignCtx).status = 422
    ∧ (deleteRoute deleteForeignCtx).msg = ("You are not allowed to delete this user!")
    ∧ (deleteRoute deleteForeignCtx).status ≠ 403 := by
  refine ⟨by decide, by decide, by decide, by decide⟩

/-- Closed instance of the amended delete theorem. -/
theorem delete_foreign_user_rejected_422_witness :
    (deleteRoute deleteForeignCtx).status = 422 :=
  delete_foreign_user_rejected_422 deleteForeignCtx (by decide)

/-- C6: the PATCH mutation step decides not-found by modifiedCount rather
than matchedCount: in a context where `updateOne` matched the target
(matchedCount 1) but modified nothing (the stored birthday already equals
the submitted one), the handler still answers 404 "was not found", although
the claim requires NotFound exactly when zero documents matched. -/
theorem patch_notfound_on_modified_zero :
    (patchRoute patchNoopCtx).status = 404
    ∧ (patchRoute patchNoopCtx).msg = ("alice1 was not found.")
    ∧ patchNoopCtx.updateResult = Except.ok (1, 0) := by
  refine ⟨by decide, by decide, rfl⟩

/-- C8: a PATCH payload containing any unrecognized field is rejected with
HTTP 422 regardless of the validity of its other fields. -/
theorem unknown_field_rejected_422 (ctx : Ctx)
    (h : ∃ p, p ∈ bodyL ctx ∧ recognizedFields.contains p.1 = false) :
    (patchRoute ctx).status = 422 := by
  obtain ⟨p, hmem, hrec⟩ := h
  have hbody : bodyEmpty ctx = false := by
    unfold bodyEmpty
    cases hb : ctx.body with
    | none =>
      unfold bodyL at hmem
      rw [hb] at hmem
      simp at hmem
    | some l =>
      unfold bodyL at hmem
      rw [hb] at hmem
      simp only [Option.getD_some] at hmem
      cases l with
      | nil => simp at hmem
      | cons q qs => rfl
  have hall : ((bodyL ctx).all fun q => recognizedFields.contains q.1) = false := by
    rw [List.all_eq_false]
    exact ⟨p, hmem, by simpa using hrec⟩
  have hfail : checkExactChain.run ctx
      = ChainRes.fail ("Request body contains unknown fields.") := by
    simp only [checkExactChain, hall, cond_false]
  have hne2 : (runChains ctx patchChains).1 ≠ [] :=
    runChains_errors_ne_nil ctx patchChains checkExactChain
      (by simp [patchChains]) (by rw [hfail]; rfl)
  cases herr : (runChains ctx patchChains).1 with
  | nil => exact absurd herr hne2
  | cons m0 tl =>
    have hmem0 : m0 ∈ (runChains ctx patchChains).1 := by
      rw [herr]
      exact List.mem_cons_self _ _
    obtain ⟨c, hcin, hcf⟩ := runChains_err_mem ctx patchChains m0 hmem0
    have hm0 : m0 ≠ ("") := patch_chain_msgs_ne ctx c hcin m0 hcf
    have hbeq : (m0 == ("")) = false := beq_eq_false_iff_ne.mpr hm0
    unfold patchRoute
    simp [hbody, herr, hbeq]

/-- Closed instance: a payload with the unrecognized field nickname is
answered 422. -/
theorem unknown_field_rejected_422_witness :
    (patchRoute patchUnknownFieldCtx).status = 422 :=
  unknown_field_rejected_422 patchUnknownFieldCtx
    ⟨(("nickname"), JVal.vStr ("al")), by decide, by decide⟩

/-- C9: a missing or empty request body is answered 400 before any
validator runs (the evaluation trace is empty), on both the update route
and the create route. -/
theorem empty_body_rejected_400 (ctx : Ctx) (h : bodyEmpty ctx = true) :
    patchRoute ctx = { status := 400, msg := ("My Body Is Nobody"), evald := [] }
    ∧ postUsersRoute ctx = { status := 400, msg := ("My Body Is Nobody"), evald := [] } := by
  constructor
  · unfold patchRoute
    simp [h]
  · unfold postUsersRoute
    simp [h]

/-- Closed instance of the empty-body theorem. -/
theorem empty_body_rejected_400_witness :
    patchRoute emptyBodyCtx = { status := 400, msg := ("My Body Is Nobody"), evald := [] }
    ∧ postUsersRoute emptyBodyCtx
        = { status := 400, msg := ("My Body Is Nobody"), evald := [] } :=
  empty_body_rejected_400 emptyBodyCtx rfl

/-- C10: with a validated payload (no validation errors), the user-creation
handler acknowledges 201 without consulting the outcome of the non-awaited
insert: the response is literally the same whether or not the insert
faults, so an insert-time storage fault is never surfaced as a 500. -/
theorem create_ack_independent_of_insert (b : ReqBody) (fault : Bool) :
    _createDocument [] ("user") b fault = (201, ("user was created.")) := rfl

end Myflix
